import Mathlib

/-!
# Shallow embedding of the birth-timing scoring engine

This file embeds the core computation pipeline of the repository
(`src/lib/geolocation`, `src/lib/seasonal-risk.ts`, `src/lib/solar-cycle.ts`
and the optimal-timing engine) into Lean 4 and proves the specification
claims about it.

Modelling conventions:
* JS numbers are modelled as `ℚ` (the pipeline only performs field
  operations, comparisons, `Math.round`, `Math.ceil`, `Math.min/max/abs`
  on its inputs, so exact rational arithmetic is a faithful model of the
  values the code manipulates, up to floating-point rounding that no claim
  depends on).
* The transcendental functions `Math.sin`, `Math.cos`, `Math.exp` and the
  constant `Math.PI` are abstracted into a `MathEnv` record of opaque-in-spirit
  (but total, executable) rational functions; every theorem quantifies over
  the environment, so the theorems hold for any values these functions
  can return.
* Each call of `Math.random()` is modelled by an explicit rational
  parameter (a "draw"); theorems quantify over all draws.
* JS strings are modelled as `List Char`; `String.prototype.includes`
  becomes a contiguous-sublist test.
* Fallible operations (record lookup with a possibly-absent key, division
  guarded by a nonzero divisor) live in `Option`; the failure branch of the
  embedding is `none`.
* `Math.round` is "round half toward +∞", i.e. `⌊q + 1/2⌋`.
-/

set_option maxRecDepth 100000

/-- JS `Math.round`: round half away from zero toward +∞ (`⌊q + 1/2⌋`). -/
def jsRound (q : ℚ) : ℤ := ⌊q + 1/2⌋

/-- JS strings, modelled as lists of characters. -/
abbrev Str := List Char

/-- JS `s.includes(sub)`: `sub` occurs contiguously inside `s`. -/
def includesStr (s sub : Str) : Bool := s.tails.any fun t => sub.isPrefixOf t

/-- Abstraction of the transcendental parts of JS `Math` used by the solar
and UV models.  The pipeline's claims do not depend on the actual values of
these functions, so the embedding quantifies over them. -/
structure MathEnv where
  pi : ℚ
  sin : ℚ → ℚ
  cos : ℚ → ℚ
  exp : ℚ → ℚ

/-- A calendar date at the granularity the engine reads it: `getFullYear`
and `getMonth` (0-based month).  No scoring rule reads the day of month. -/
structure JSDate where
  year : ℤ
  month : Fin 12
deriving DecidableEq

/-- `date-fns` `addMonths` at year/month granularity (months roll over into
years with floor semantics, as JS `Date` does). -/
def addMonths (d : JSDate) (i : ℤ) : JSDate :=
  let t : ℤ := d.year * 12 + (d.month.val : ℤ) + i
  ⟨t.ediv 12, ⟨(t.emod 12).toNat, by
    have h0 : 0 ≤ t.emod 12 := Int.emod_nonneg t (by norm_num)
    have h1 : t.emod 12 < 12 := Int.emod_lt_of_pos t (by norm_num)
    omega⟩⟩

/-- The twelve month names, for `format(date, 'MMMM')`. -/
def monthNames : List Str :=
  ["January".toList, "February".toList, "March".toList, "April".toList,
   "May".toList, "June".toList, "July".toList, "August".toList,
   "September".toList, "October".toList, "November".toList, "December".toList]

/-- `format(date, 'MMMM')`: full month name of a 0-based month index. -/
def monthName (m : Fin 12) : Str := monthNames.getD m.val []

/-! ## Geo utilities (`src/lib/geolocation.ts`) -/

/-- `LocationData` as produced by the geolocation/geocoding collaborator. -/
structure LocationData where
  latitude : ℚ
  longitude : ℚ
  city : Option Str
  country : Option Str
  timezone : Option Str
  accuracy : Option ℚ
deriving DecidableEq

def calculateDistanceFromEquator (latitude : ℚ) : ℚ := |latitude|

def isNorthernHemisphere (latitude : ℚ) : Bool := decide (0 < latitude)

def calculateUVIntensityByLatitude (env : MathEnv) (latitude : ℚ) (month : ℕ) : ℚ :=
  let distanceFromEquator := calculateDistanceFromEquator latitude
  let baseIntensity := max 0 (10 - distanceFromEquator / 90 * 10)
  let seasonalMultiplier :=
    if isNorthernHemisphere latitude then
      env.cos ((((month : ℚ) - 6) * env.pi) / 6) * 0.3 + 1
    else
      env.cos ((((month : ℚ) - 12) * env.pi) / 6) * 0.3 + 1
  max 0 (min 11 (baseIntensity * seasonalMultiplier))

/-! ## Seasonal risk model (`src/lib/seasonal-risk.ts`) -/

inductive RiskLevel
  | LOW
  | MEDIUM
  | HIGH
deriving DecidableEq

structure DiseaseRiskByMonth where
  cardiovascular : ℚ
  mentalHealth : ℚ
  autoimmune : ℚ
  respiratory : ℚ
  infectious : ℚ
deriving DecidableEq

/-- The fixed month → disease-risk-multiplier table (Northern Hemisphere,
keys 1–12).  Access to an absent key is `none` (JS would yield `undefined`
and crash at the subsequent field access). -/
def NORTHERN_HEMISPHERE_DISEASE_RISKS : ℕ → Option DiseaseRiskByMonth
  | 1 => some ⟨1.06, 1.08, 0.94, 1.12, 1.15⟩
  | 2 => some ⟨1.05, 1.06, 0.96, 1.10, 1.12⟩
  | 3 => some ⟨1.02, 1.02, 0.98, 1.05, 1.08⟩
  | 4 => some ⟨0.98, 0.96, 1.02, 0.98, 1.02⟩
  | 5 => some ⟨0.95, 0.92, 1.05, 0.92, 0.95⟩
  | 6 => some ⟨0.92, 0.88, 1.08, 0.88, 0.88⟩
  | 7 => some ⟨0.90, 0.85, 1.10, 0.85, 0.82⟩
  | 8 => some ⟨0.92, 0.88, 1.08, 0.88, 0.85⟩
  | 9 => some ⟨0.95, 0.92, 1.05, 0.92, 0.90⟩
  | 10 => some ⟨0.98, 0.96, 1.02, 0.98, 0.95⟩
  | 11 => some ⟨1.02, 1.02, 0.98, 1.05, 1.02⟩
  | 12 => some ⟨1.05, 1.06, 0.96, 1.10, 1.10⟩
  | _ => none

structure SeasonalRiskData where
  birthMonth : ℕ
  vitaminDScore : ℤ
  infectiousRisk : ℤ
  relativeAgeAdvantage : ℤ
  cardiovascularRisk : ℤ
  mentalHealthRisk : ℤ
  autoImmuneRisk : ℤ
  overallSeasonalScore : ℤ
  riskLevel : RiskLevel
deriving DecidableEq

def calculateVitaminDSynthesis (env : MathEnv) (location : LocationData)
    (birthDate : JSDate) : ℚ :=
  let birthMonth := birthDate.month.val + 1
  let uvIntensity := calculateUVIntensityByLatitude env location.latitude birthMonth
  -- computed but unused, exactly as in the source
  let _synthesisCapacity := max 0 (min 100 (uvIntensity * 10))
  let criticalMonths := (List.range 6).map fun i =>
    calculateUVIntensityByLatitude env location.latitude (((birthMonth - 1 + i) % 12) + 1)
  let averageCriticalUV := criticalMonths.foldl (· + ·) 0 / 6
  max 0 (min 100 (averageCriticalUV * 10))

def calculateInfectiousRisk (birthDate : JSDate) (location : LocationData) : Option ℚ :=
  let birthMonth := birthDate.month.val + 1
  let isNorthern := isNorthernHemisphere location.latitude
  let adjustedMonth := if isNorthern then birthMonth else ((birthMonth + 5) % 12) + 1
  (NORTHERN_HEMISPHERE_DISEASE_RISKS adjustedMonth).map (·.infectious)

/-- Country → school-year cutoff month; absent countries fall back to the
`'default'` entry (9) through `|| schoolYearCutoffs['default']`. -/
def schoolYearCutoffs (country : Str) : Option ℤ :=
  if country = "US".toList then some 9
  else if country = "UK".toList then some 9
  else if country = "Canada".toList then some 9
  else if country = "Australia".toList then some 1
  else if country = "Germany".toList then some 6
  else if country = "France".toList then some 9
  else if country = "Japan".toList then some 4
  else none

def calculateRelativeAgeEffect (birthDate : JSDate) (country : Str) : ℚ :=
  let birthMonth : ℤ := (birthDate.month.val : ℤ) + 1
  let cutoffMonth := (schoolYearCutoffs country).getD 9
  let monthsFromCutoff := (birthMonth - cutoffMonth + 12) % 12
  max 0 (100 - (monthsFromCutoff : ℚ) * 8.33)

def calculateDiseaseRisks (birthDate : JSDate) (location : LocationData) :
    Option DiseaseRiskByMonth :=
  let birthMonth := birthDate.month.val + 1
  let isNorthern := isNorthernHemisphere location.latitude
  let adjustedMonth := if isNorthern then birthMonth else ((birthMonth + 5) % 12) + 1
  (NORTHERN_HEMISPHERE_DISEASE_RISKS adjustedMonth).map fun riskData =>
    ⟨riskData.cardiovascular, riskData.mentalHealth, riskData.autoimmune,
     riskData.respiratory, riskData.infectious⟩

def calculateSeasonalRisk (env : MathEnv) (birthDate : JSDate)
    (location : LocationData) : Option SeasonalRiskData := do
  let birthMonth := birthDate.month.val + 1
  let vitaminDScore := calculateVitaminDSynthesis env location birthDate
  let infectiousRisk ← calculateInfectiousRisk birthDate location
  let relativeAgeAdvantage :=
    calculateRelativeAgeEffect birthDate (location.country.getD "US".toList)
  let diseaseRisks ← calculateDiseaseRisks birthDate location
  let normalizedInfectiousRisk := max 0 ((infectiousRisk - 0.8) * 500)
  let normalizedCardiovascularRisk := max 0 ((diseaseRisks.cardiovascular - 0.9) * 500)
  let normalizedMentalHealthRisk := max 0 ((diseaseRisks.mentalHealth - 0.85) * 400)
  let normalizedAutoImmuneRisk := max 0 (|diseaseRisks.autoimmune - 1.0| * 1000)
  let overallSeasonalScore := jsRound
    (vitaminDScore * 0.3 +
     (100 - min 100 normalizedInfectiousRisk) * 0.25 +
     relativeAgeAdvantage * 0.15 +
     (100 - min 100 normalizedCardiovascularRisk) * 0.15 +
     (100 - min 100 normalizedMentalHealthRisk) * 0.10 +
     (100 - min 100 normalizedAutoImmuneRisk) * 0.05)
  let riskLevel : RiskLevel :=
    if 70 ≤ overallSeasonalScore then .LOW
    else if 50 ≤ overallSeasonalScore then .MEDIUM
    else .HIGH
  return ⟨birthMonth, jsRound vitaminDScore, jsRound normalizedInfectiousRisk,
    jsRound relativeAgeAdvantage, jsRound normalizedCardiovascularRisk,
    jsRound normalizedMentalHealthRisk, jsRound normalizedAutoImmuneRisk,
    overallSeasonalScore, riskLevel⟩

def getSeasonalRecommendations (env : MathEnv) (birthDate : JSDate)
    (location : LocationData) : Option (List Str) := do
  let seasonalRisk ← calculateSeasonalRisk env birthDate location
  return (if seasonalRisk.vitaminDScore < 50 then
      ["Consider vitamin D supplementation during pregnancy and early infancy".toList]
     else []) ++
    (if 70 < seasonalRisk.infectiousRisk then
      ["Take extra precautions against infections during the first 6 months".toList]
     else []) ++
    (if seasonalRisk.relativeAgeAdvantage < 30 then
      ["Child may benefit from delayed school entry or summer programs".toList]
     else []) ++
    (if 60 < seasonalRisk.cardiovascularRisk then
      ["Monitor cardiovascular health markers throughout life".toList]
     else []) ++
    (if 60 < seasonalRisk.mentalHealthRisk then
      ["Be aware of increased mental health risks and ensure good support systems".toList]
     else [])

/-! ## Solar cycle model (`src/lib/solar-cycle.ts`) -/

structure SolarCycleData where
  cycleNumber : ℤ
  startYear : ℤ
  peakYear : ℤ
  endYear : ℤ
  maxSunspots : ℚ
  phase : Str
deriving DecidableEq

/-- Historical solar cycle table (cycles 20–25). -/
def SOLAR_CYCLES : List SolarCycleData :=
  [⟨20, 1964, 1968, 1976, 156, "minimum".toList⟩,
   ⟨21, 1976, 1979, 1986, 232, "minimum".toList⟩,
   ⟨22, 1986, 1989, 1996, 212, "minimum".toList⟩,
   ⟨23, 1996, 2000, 2008, 180, "minimum".toList⟩,
   ⟨24, 2008, 2012, 2019, 146, "minimum".toList⟩,
   ⟨25, 2019, 2024, 2030, 137, "ascending".toList⟩]

/-- The code's year-membership test for a cycle (`year >= startYear && year <= endYear`). -/
def cycleContainsYear (cycle : SolarCycleData) (year : ℤ) : Bool :=
  decide (cycle.startYear ≤ year) && decide (year ≤ cycle.endYear)

def predictFutureSolarCycle (date : JSDate) : SolarCycleData :=
  let year := date.year
  let lastCycle := SOLAR_CYCLES.getLast (by decide)
  if lastCycle.endYear < year then
    let cyclesAhead := ⌈((year - lastCycle.endYear : ℤ) : ℚ) / 11⌉
    let cycleNumber := lastCycle.cycleNumber + cyclesAhead
    let startYear := lastCycle.endYear + (cyclesAhead - 1) * 11
    ⟨cycleNumber, startYear, startYear + 4, startYear + 11, 140, "minimum".toList⟩
  else
    lastCycle

def getSolarCycleForDate (date : JSDate) : SolarCycleData :=
  let year := date.year
  match SOLAR_CYCLES.find? (fun cycle => cycleContainsYear cycle year) with
  | some cycle => cycle
  | none => predictFutureSolarCycle date

/-- Synthetic sunspot number.  `rand` is the `Math.random()` draw of this
call; a zero cycle length would make the JS expression ill-defined, so the
embedding guards the division and fails with `none` there. -/
def calculateSunspotNumber (env : MathEnv) (rand : ℚ) (date : JSDate) : Option ℤ :=
  let cycle := getSolarCycleForDate date
  let year := date.year
  let month := date.month.val
  let yearInCycle : ℚ := ((year - cycle.startYear : ℤ) : ℚ) + (month : ℚ) / 12
  if cycle.endYear - cycle.startYear = 0 then none
  else
    let cycleProgress := yearInCycle / ((cycle.endYear - cycle.startYear : ℤ) : ℚ)
    let phaseRadians := cycleProgress * 2 * env.pi
    let baseActivity := env.sin phaseRadians
    let peakAdjustment := env.exp (-((cycleProgress - 0.36) ^ 2 * 8))
    let sunspots := max 0
      ((baseActivity * 0.7 + peakAdjustment * 0.8) * cycle.maxSunspots + (rand - 0.5) * 20)
    some (jsRound sunspots)

structure SolarActivityData where
  date : JSDate
  sunspotNumber : ℤ
  solarFluxIndex : ℚ
  geomagneticIndex : ℚ
  cosmicRayIntensity : ℚ
  cyclePhase : Str
  lifespanImpact : ℚ
  uvRadiationLevel : ℚ
deriving DecidableEq

def calculateUVFromSolarActivity (sunspotNumber : ℚ) : ℚ :=
  let baseUV : ℚ := 5
  let solarMultiplier := 1 + sunspotNumber / 200 * 0.3
  min 11 (baseUV * solarMultiplier)

/-- Per-date solar activity sample.  `rand1` is the sunspot-noise draw,
`rand2`/`rand3` are the flux and geomagnetic draws. -/
def calculateSolarActivityData (env : MathEnv) (rand1 rand2 rand3 : ℚ)
    (date : JSDate) : Option SolarActivityData :=
  (calculateSunspotNumber env rand1 date).bind fun sunspotNumber =>
  let cycle := getSolarCycleForDate date
  let year := date.year
  let yearInCycle : ℚ := ((year - cycle.startYear : ℤ) : ℚ)
  if cycle.endYear - cycle.startYear = 0 then none
  else
    let cycleProgress := yearInCycle / ((cycle.endYear - cycle.startYear : ℤ) : ℚ)
    let phase : Str :=
      if cycleProgress < 0.2 then "minimum".toList
      else if cycleProgress < 0.5 then "ascending".toList
      else if cycleProgress < 0.7 then "maximum".toList
      else "descending".toList
    let normalizedSunspots := max 0 (min 200 (sunspotNumber : ℚ))
    let lifespanImpact :=
      if normalizedSunspots < 30 then 0.5 - normalizedSunspots / 30 * 0.8
      else if normalizedSunspots < 120 then -0.3 - (normalizedSunspots - 30) / 90 * 4.5
      else -4.8 - (normalizedSunspots - 120) / 80 * 1.8
    let monthVariation := ((date.month.val : ℚ) - 6) * 0.1
    let finalLifespanImpact := (jsRound ((lifespanImpact + monthVariation) * 10) : ℚ) / 10
    some
      { date := date
        sunspotNumber := sunspotNumber
        solarFluxIndex := max 70 ((sunspotNumber : ℚ) + 70 + rand2 * 30)
        geomagneticIndex := max 0 (min 9 ((sunspotNumber : ℚ) / 30 + rand3 * 2))
        cosmicRayIntensity := max 0 (100 - (sunspotNumber : ℚ) / 2)
        cyclePhase := phase
        lifespanImpact := finalLifespanImpact
        uvRadiationLevel := calculateUVFromSolarActivity (sunspotNumber : ℚ) }

def getSolarRiskLevel (sunspotNumber : ℤ) : RiskLevel :=
  if sunspotNumber < 50 then .LOW
  else if sunspotNumber < 100 then .MEDIUM
  else .HIGH

def calculateMentalHealthRisk (sunspotNumber : ℤ) : ℚ :=
  let baseRisk : ℚ := 1.0
  let solarMaximumMultiplier : ℚ := if 90 < sunspotNumber then 1.3 else 1.0
  baseRisk * solarMaximumMultiplier

/-! ## Optimal timing engine (`src/lib/optimal-timing.ts`) -/

inductive RiskCategory
  | solar
  | seasonal
  | geographic
  | environmental
deriving DecidableEq

structure RiskFactor where
  category : RiskCategory
  name : Str
  impact : ℤ
  severity : RiskLevel
  description : Str
deriving DecidableEq

structure SolarDataSummary where
  sunspotNumber : ℤ
  solarRisk : RiskLevel
  lifespanImpact : ℚ
  mentalHealthMultiplier : ℚ
  uvRadiationLevel : ℚ
deriving DecidableEq

structure SeasonalDataSummary where
  vitaminDScore : ℤ
  infectiousRisk : ℤ
  relativeAgeAdvantage : ℤ
  overallSeasonalScore : ℤ
deriving DecidableEq

structure OptimalTimingResult where
  birthDate : JSDate
  overallScore : ℤ
  lifeExpectancyDelta : ℚ
  confidenceLevel : RiskLevel
  riskFactors : List RiskFactor
  recommendations : List Str
  solarData : SolarDataSummary
  seasonalData : SeasonalDataSummary
deriving DecidableEq

structure Weights where
  solar : ℚ
  seasonal : ℚ
  geographic : ℚ
  environmental : ℚ

def WEIGHTS : Weights := ⟨0.4, 0.35, 0.15, 0.1⟩

/-- Solar risk factor: exactly one of the three branches always fires. -/
def solarRiskFactor (lifespanImpact : ℚ) : RiskFactor :=
  if lifespanImpact < -1 then
    ⟨.solar, "Solar Activity Risk".toList, -jsRound (|lifespanImpact| * 12),
      if lifespanImpact < -3 then .HIGH else .MEDIUM,
      "High solar activity during birth period affects development".toList⟩
  else if 0.5 < lifespanImpact then
    ⟨.solar, "Solar Minimum Benefit".toList, jsRound (lifespanImpact * 15), .LOW,
      "Low solar activity provides optimal conditions".toList⟩
  else
    ⟨.solar, "Solar Activity Neutral".toList, jsRound (lifespanImpact * 5), .LOW,
      "Moderate solar activity with minimal impact".toList⟩

/-- UV risk factor, generated only when `|uvImpact| > 2`. -/
def uvRiskFactors (uvRadiationLevel : ℚ) : List RiskFactor :=
  let uvImpact := jsRound ((uvRadiationLevel - 6) * 5)
  if 2 < |uvImpact| then
    [⟨.solar,
      (if 0 < uvImpact then "UV Exposure Risk" else "UV Protection Benefit").toList,
      if 0 < uvImpact then -|uvImpact| else |uvImpact|,
      if 15 < |uvImpact| then .HIGH else if 8 < |uvImpact| then .MEDIUM else .LOW,
      (if 0 < uvImpact then "Elevated UV radiation increases health risks"
       else "Lower UV exposure reduces radiation risks").toList⟩]
  else []

/-- Vitamin D risk factor: always generated. -/
def vitaminDRiskFactor (vitaminDScore : ℤ) : RiskFactor :=
  let vitaminDImpact := jsRound (((vitaminDScore : ℚ) - 60) * 0.5)
  ⟨.seasonal,
    (if 0 < vitaminDImpact then "Vitamin D Advantage"
     else "Vitamin D Deficiency Risk").toList,
    vitaminDImpact,
    if 15 < |vitaminDImpact| then .HIGH else if 8 < |vitaminDImpact| then .MEDIUM else .LOW,
    (if 0 < vitaminDImpact then "Optimal vitamin D synthesis during pregnancy"
     else "Limited vitamin D synthesis may affect development").toList⟩

/-- Infection risk factor, generated only when `|infectionImpact| > 3`. -/
def infectionRiskFactors (infectiousRisk : ℤ) : List RiskFactor :=
  let infectionImpact := jsRound (((infectiousRisk : ℚ) - 50) * 0.6)
  if 3 < |infectionImpact| then
    [⟨.seasonal,
      (if 0 < infectionImpact then "Infection Season Risk"
       else "Low Infection Period").toList,
      if 0 < infectionImpact then -|infectionImpact| else |infectionImpact|,
      if 18 < |infectionImpact| then .HIGH
      else if 10 < |infectionImpact| then .MEDIUM else .LOW,
      (if 0 < infectionImpact then "Higher infection rates during birth period"
       else "Lower infection risk provides health benefits").toList⟩]
  else []

/-- School-age advantage factor, generated only when `relativeAgeAdvantage > 60`. -/
def schoolAgeRiskFactors (relativeAgeAdvantage : ℤ) : List RiskFactor :=
  if 60 < relativeAgeAdvantage then
    [⟨.seasonal, "School Age Advantage".toList,
      jsRound (((relativeAgeAdvantage : ℚ) - 50) * 0.8), .LOW,
      "Favorable birth timing for academic year".toList⟩]
  else []

/-- Geographic latitude factor: always generated. -/
def latitudeRiskFactor (latitude : ℚ) : RiskFactor :=
  let distanceFromEquator := |latitude|
  let latitudeImpact := jsRound ((35 - distanceFromEquator) * 0.6)
  ⟨.geographic,
    (if 0 < latitudeImpact then "Favorable Latitude" else "Latitude Challenge").toList,
    latitudeImpact,
    if 15 < |latitudeImpact| then .MEDIUM else .LOW,
    (if 0 < latitudeImpact then "Optimal latitude for balanced seasonal exposure"
     else "Extreme latitude affects seasonal patterns").toList⟩

/-- Environmental factor chosen by the calendar season of the 0-based month. -/
def environmentalRiskFactor (month : Fin 12) : RiskFactor :=
  let m := month.val
  let season : Str :=
    if 3 ≤ m ∧ m ≤ 5 then "spring".toList
    else if 6 ≤ m ∧ m ≤ 8 then "summer".toList
    else if 9 ≤ m ∧ m ≤ 11 then "fall".toList
    else "winter".toList
  let envImpact : ℤ :=
    if season = "spring".toList then -12
    else if season = "summer".toList then 8
    else if season = "fall".toList then 5
    else -18
  let envName : Str :=
    if season = "spring".toList then "Spring Allergen Exposure".toList
    else if season = "summer".toList then "Summer Air Quality".toList
    else if season = "fall".toList then "Fall Transition Period".toList
    else "Winter Environmental Risk".toList
  let envDesc : Str :=
    if season = "spring".toList then "High pollen counts during birth period".toList
    else if season = "summer".toList then
      "Generally better air quality and outdoor conditions".toList
    else if season = "fall".toList then "Moderate environmental conditions".toList
    else "Indoor pollution and respiratory illness risk".toList
  ⟨.environmental, envName, envImpact,
    if 15 < |envImpact| then .MEDIUM else .LOW, envDesc⟩

/-- The full ordered risk-factor list of one engine run. -/
def engineRiskFactors (solarActivity : SolarActivityData)
    (seasonalRisk : SeasonalRiskData) (location : LocationData)
    (targetDate : JSDate) : List RiskFactor :=
  [solarRiskFactor solarActivity.lifespanImpact] ++
  uvRiskFactors solarActivity.uvRadiationLevel ++
  [vitaminDRiskFactor seasonalRisk.vitaminDScore] ++
  infectionRiskFactors seasonalRisk.infectiousRisk ++
  schoolAgeRiskFactors seasonalRisk.relativeAgeAdvantage ++
  [latitudeRiskFactor location.latitude] ++
  [environmentalRiskFactor targetDate.month]

/-- The recommendation string of the mental-health branch. -/
def mentalCareStr : Str :=
  "Elevated mental health risks detected - establish care team including mental health specialist".toList

/-- The critical-priority marker the sort comparator matches on. -/
def critMarker : Str := "⚠️ CRITICAL".toList

/-- The second-priority marker the sort comparator matches on. -/
def delayMarker : Str := "Consider delaying".toList

/-- JS `Number.prototype.toFixed(1)` for the one-decimal rationals the solar
model produces. -/
def toFixed1 (q : ℚ) : Str :=
  let n := jsRound (q * 10)
  (if n < 0 then "-".toList else []) ++
    Nat.toDigits 10 (n.natAbs / 10) ++ ".".toList ++ Nat.toDigits 10 (n.natAbs % 10)

/-- Recommendations pushed by the solar lifespan-impact cascade. -/
def solarRecs (lifespanImpact : ℚ) : List Str :=
  if lifespanImpact < -5 then
    ["⚠️ CRITICAL: Consider delaying conception by 12-18 months - peak solar maximum detected with significant lifespan impact (-".toList
      ++ toFixed1 |lifespanImpact| ++ " years)".toList]
  else if lifespanImpact < -3 then
    ["Consider delaying conception by 6-12 months to avoid peak solar activity (current impact: ".toList
      ++ toFixed1 lifespanImpact ++ " years)".toList]
  else if 2 < lifespanImpact then
    ["Excellent solar conditions detected - optimal timing from a solar cycle perspective (+".toList
      ++ toFixed1 lifespanImpact ++ " years lifespan benefit)".toList]
  else []

/-- Recommendations pushed by the vitamin-D cascade. -/
def vitaminDRecs (vitaminDScore : ℤ) (month : Fin 12) : List Str :=
  if vitaminDScore < 30 then
    ["⚠️ CRITICAL: Start high-dose vitamin D supplementation immediately (2000-4000 IU daily) - severe deficiency risk in ".toList
      ++ monthName month,
     "Schedule vitamin D blood test before conception and monitor levels throughout pregnancy".toList]
  else if vitaminDScore < 50 then
    ["Begin vitamin D supplementation (1000-2000 IU daily) at least 3 months before conception".toList,
     "Consider light therapy during pregnancy months if born in ".toList ++ monthName month]
  else if 80 < vitaminDScore then
    ["Excellent vitamin D synthesis expected - maintain outdoor activities for natural production".toList]
  else []

/-- Recommendations pushed by the infection-risk cascade. -/
def infectionRecs (infectiousRisk : ℤ) (month : Fin 12) : List Str :=
  if 80 < infectiousRisk then
    ["⚠️ High infection risk period - implement strict hygiene protocols during first trimester".toList,
     "Consider flu vaccination before conception and pertussis vaccine during pregnancy".toList,
     "Limit exposure to crowded spaces during peak ".toList ++ monthName month
       ++ " infection season".toList]
  else if 60 < infectiousRisk then
    ["Moderate infection risk - maintain good hygiene practices and consider immune support supplements".toList]
  else []

/-- Recommendations pushed by the school-age cascade. -/
def schoolAgeRecs (relativeAgeAdvantage : ℤ) : List Str :=
  if 70 < relativeAgeAdvantage then
    ["Excellent school entry timing - child will be among oldest in class with documented academic advantages".toList,
     "Consider early enrichment programs to maximize age-related developmental advantages".toList]
  else if relativeAgeAdvantage < 30 then
    ["Child will be among youngest in class - consider delayed kindergarten entry or \"redshirting\"".toList,
     "Focus on early childhood development programs to offset relative age disadvantage".toList]
  else []

/-- Recommendations pushed for extreme distance from the equator. -/
def latitudeRecs (distanceFromEquator : ℚ) : List Str :=
  if 50 < distanceFromEquator then
    ["Northern latitude detected - ensure adequate indoor air quality and humidity control during winter months".toList,
     "Consider seasonal affective disorder (SAD) prevention with light therapy during pregnancy".toList]
  else []

/-- Recommendations pushed by the mental-health-multiplier guard. -/
def mentalHealthRecs (mentalHealthMultiplier : ℚ) (month : Fin 12) : List Str :=
  if 1.3 < mentalHealthMultiplier then
    [mentalCareStr,
     "Create postpartum support plan with emphasis on ".toList ++ monthName month
       ++ " seasonal factors".toList]
  else []

/-- The closing summary recommendation chosen by overall-score tier. -/
def scoreTierRecs (overallScore : ℤ) : List Str :=
  if 80 ≤ overallScore then
    ["Optimal timing confirmed - proceed with standard prenatal care and preparation".toList]
  else if 60 ≤ overallScore then
    ["Good timing with manageable risks - focus on addressing specific risk factors identified above".toList]
  else
    ["Consider alternative timing or implement comprehensive risk mitigation strategies".toList]

/-- The full recommendation list of one engine run, in push order,
before deduplication and priority sorting. -/
def engineRecommendations (solarActivity : SolarActivityData)
    (seasonalRisk : SeasonalRiskData) (mentalHealthMultiplier : ℚ)
    (distanceFromEquator : ℚ) (seasonalRecs : List Str) (overallScore : ℤ)
    (targetDate : JSDate) : List Str :=
  solarRecs solarActivity.lifespanImpact ++
  vitaminDRecs seasonalRisk.vitaminDScore targetDate.month ++
  infectionRecs seasonalRisk.infectiousRisk targetDate.month ++
  schoolAgeRecs seasonalRisk.relativeAgeAdvantage ++
  latitudeRecs distanceFromEquator ++
  mentalHealthRecs mentalHealthMultiplier targetDate.month ++
  seasonalRecs ++
  scoreTierRecs overallScore

/-- `[...new Set(list)]`: drop later duplicates, keeping first occurrences. -/
def dedupAux (seen : List Str) : List Str → List Str
  | [] => []
  | x :: xs => if seen.contains x then dedupAux seen xs else x :: dedupAux (x :: seen) xs

def jsSetDedup (l : List Str) : List Str := dedupAux [] l

/-- "`a` may stay before `b`": the source comparator returns `≤ 0` on `(a, b)`. -/
def recBeforeOrEqual (a b : Str) : Bool :=
  if includesStr a critMarker then true
  else if includesStr b critMarker then false
  else if includesStr a delayMarker then true
  else if includesStr b delayMarker then false
  else true

/-- Stable insertion of `x` into a sorted-by-`le` list (model of the JS
stable `Array.prototype.sort`). -/
def insertBy (le : α → α → Bool) (x : α) : List α → List α
  | [] => [x]
  | y :: ys => if le x y then x :: y :: ys else y :: insertBy le x ys

/-- Stable sort by `le` (model of the JS stable `Array.prototype.sort`). -/
def sortBy (le : α → α → Bool) : List α → List α
  | [] => []
  | x :: xs => insertBy le x (sortBy le xs)

def jsSortRecs (l : List Str) : List Str := sortBy recBeforeOrEqual l

/-- The pure part of `calculateOptimalTiming` once the solar sample, the
seasonal risk record and the seasonal recommendations are available. -/
def assembleTimingResult (solarActivity : SolarActivityData)
    (seasonalRisk : SeasonalRiskData) (seasonalRecs : List Str)
    (location : LocationData) (targetDate : JSDate) : OptimalTimingResult :=
  let solarRisk := getSolarRiskLevel solarActivity.sunspotNumber
  let mentalHealthMultiplier := calculateMentalHealthRisk solarActivity.sunspotNumber
  let riskFactors := engineRiskFactors solarActivity seasonalRisk location targetDate
  let distanceFromEquator := |location.latitude|
  let solarScore := max 0 (100 - |solarActivity.lifespanImpact| * 15)
  let seasonalScore : ℚ := (seasonalRisk.overallSeasonalScore : ℚ)
  let geographicScore := max 0 (100 - distanceFromEquator)
  let environmentalScore : ℚ := 75
  let overallScore := jsRound
    (solarScore * WEIGHTS.solar + seasonalScore * WEIGHTS.seasonal +
     geographicScore * WEIGHTS.geographic + environmentalScore * WEIGHTS.environmental)
  let confidenceLevel : RiskLevel :=
    if 80 ≤ overallScore then .HIGH
    else if 60 ≤ overallScore then .MEDIUM
    else .LOW
  let recommendations := engineRecommendations solarActivity seasonalRisk
    mentalHealthMultiplier distanceFromEquator seasonalRecs overallScore targetDate
  { birthDate := targetDate
    overallScore := overallScore
    lifeExpectancyDelta := solarActivity.lifespanImpact
    confidenceLevel := confidenceLevel
    riskFactors := riskFactors
    recommendations := jsSortRecs (jsSetDedup recommendations)
    solarData :=
      ⟨solarActivity.sunspotNumber, solarRisk, solarActivity.lifespanImpact,
       mentalHealthMultiplier, solarActivity.uvRadiationLevel⟩
    seasonalData :=
      ⟨seasonalRisk.vitaminDScore, seasonalRisk.infectiousRisk,
       seasonalRisk.relativeAgeAdvantage, seasonalRisk.overallSeasonalScore⟩ }

/-- The engine's single entry point.  `rand1`/`rand2`/`rand3` are the three
`Math.random()` draws of the underlying solar sample. -/
def calculateOptimalTiming (env : MathEnv) (rand1 rand2 rand3 : ℚ)
    (location : LocationData) (targetDate : JSDate) : Option OptimalTimingResult := do
  let solarActivity ← calculateSolarActivityData env rand1 rand2 rand3 targetDate
  let seasonalRisk ← calculateSeasonalRisk env targetDate location
  let seasonalRecs ← getSeasonalRecommendations env targetDate location
  return assembleTimingResult solarActivity seasonalRisk seasonalRecs location targetDate

/-! ## Range aggregation (`analyzeTimingRange`) -/

inductive YearlyTrend
  | improving
  | stable
  | declining
deriving DecidableEq

structure TimingAnalysis where
  optimalWindows : List OptimalTimingResult
  currentTiming : OptimalTimingResult
  bestOverallMonth : ℕ
  worstOverallMonth : ℕ
  yearlyTrend : YearlyTrend
deriving DecidableEq

/-- Sequence a list of fallible computations, as the loop of awaited engine
calls does: the first failure aborts the whole range analysis. -/
def mapMOption (f : α → Option β) : List α → Option (List β)
  | [] => some []
  | x :: xs => (f x).bind fun y => (mapMOption f xs).map fun ys => y :: ys

/-- The month offsets `-N, …, N` visited by the analysis loop (one engine
evaluation each). -/
def monthOffsets (rangeMonths : ℕ) : List ℤ :=
  (List.range (2 * rangeMonths + 1)).map fun (k : ℕ) => (k : ℤ) - (rangeMonths : ℤ)

/-- "`a` may stay before `b`" for the descending-score sort
(`(a, b) => b.overallScore - a.overallScore`). -/
def scoreBeforeOrEqual (a b : OptimalTimingResult) : Bool :=
  decide (b.overallScore ≤ a.overallScore)

/-- `analyzeTimingRange`.  `draws` gives the three `Math.random()` draws of
the engine call at each month offset; `currentDraw` those of the final
`currentTiming` call. -/
def analyzeTimingRange (env : MathEnv) (draws : ℤ → ℚ × ℚ × ℚ)
    (currentDraw : ℚ × ℚ × ℚ) (location : LocationData) (centerDate : JSDate)
    (rangeMonths : ℕ) : Option TimingAnalysis := do
  let analyses ← mapMOption (fun i =>
    calculateOptimalTiming env (draws i).1 (draws i).2.1 (draws i).2.2
      location (addMonths centerDate i)) (monthOffsets rangeMonths)
  let sortedAnalyses := sortBy scoreBeforeOrEqual analyses
  let topQuartileCount := (⌈(analyses.length : ℚ) * 0.25⌉).toNat
  let optimalWindows := sortedAnalyses.take topQuartileCount
  let bestAnalysis ← sortedAnalyses.head?
  let worstAnalysis ← sortedAnalyses.getLast?
  let currentYear := centerDate.year
  let currentYearAnalyses := analyses.filter fun a => decide (a.birthDate.year = currentYear)
  let nextYearAnalyses := analyses.filter fun a => decide (a.birthDate.year = currentYear + 1)
  let yearlyTrend : YearlyTrend :=
    if 0 < nextYearAnalyses.length ∧ 0 < currentYearAnalyses.length then
      let currentAvg := (currentYearAnalyses.map fun a => (a.overallScore : ℚ)).foldl (· + ·) 0
        / (currentYearAnalyses.length : ℚ)
      let nextAvg := (nextYearAnalyses.map fun a => (a.overallScore : ℚ)).foldl (· + ·) 0
        / (nextYearAnalyses.length : ℚ)
      if currentAvg + 5 < nextAvg then .improving
      else if nextAvg < currentAvg - 5 then .declining
      else .stable
    else .stable
  let currentTiming ← calculateOptimalTiming env currentDraw.1 currentDraw.2.1
    currentDraw.2.2 location centerDate
  return ⟨optimalWindows, currentTiming, bestAnalysis.birthDate.month.val + 1,
    worstAnalysis.birthDate.month.val + 1, yearlyTrend⟩

/-! ## Arithmetic helper lemmas -/

theorem le_jsRound {n : ℤ} {q : ℚ} (h : (n : ℚ) ≤ q) : n ≤ jsRound q := by
  unfold jsRound
  exact Int.le_floor.mpr (by linarith)

theorem jsRound_le {q : ℚ} {n : ℤ} (h : q ≤ (n : ℚ)) : jsRound q ≤ n := by
  by_contra hc
  push_neg at hc
  have h2 : ((n + 1 : ℤ) : ℚ) ≤ q + 1/2 := Int.le_floor.mp (by unfold jsRound at hc; omega)
  push_cast at h2
  linarith

theorem jsRound_nonneg {q : ℚ} (h : 0 ≤ q) : 0 ≤ jsRound q :=
  le_jsRound (by exact_mod_cast h)

/-- A value clamped by `max 0 (min c x)` lies in `[0, c]` for `0 ≤ c`. -/
theorem clamp_bounds (c x : ℚ) (hc : 0 ≤ c) :
    0 ≤ max 0 (min c x) ∧ max 0 (min c x) ≤ c :=
  ⟨le_max_left _ _, max_le hc (min_le_left _ _)⟩

/-! ## Seasonal pipeline lemmas -/

theorem diseaseRisks_table_isSome {m : ℕ} (h1 : 1 ≤ m) (h2 : m ≤ 12) :
    ∃ v, NORTHERN_HEMISPHERE_DISEASE_RISKS m = some v ∧
      v.infectious ≤ 1.15 ∧ 0.8 ≤ v.infectious := by
  interval_cases m <;> exact ⟨_, rfl, by norm_num, by norm_num⟩

theorem adjustedMonth_range (b : Bool) (m : Fin 12) :
    1 ≤ (if b = true then m.val + 1 else ((m.val + 1 + 5) % 12) + 1) ∧
      (if b = true then m.val + 1 else ((m.val + 1 + 5) % 12) + 1) ≤ 12 := by
  have := m.isLt
  cases b <;> simp <;> omega

theorem calculateInfectiousRisk_eq (d : JSDate) (loc : LocationData) :
    ∃ q, calculateInfectiousRisk d loc = some q ∧ q ≤ 1.15 ∧ 0.8 ≤ q := by
  unfold calculateInfectiousRisk
  obtain ⟨h1, h2⟩ := adjustedMonth_range (isNorthernHemisphere loc.latitude) d.month
  obtain ⟨v, hv, hvu, hvl⟩ := diseaseRisks_table_isSome h1 h2
  refine ⟨v.infectious, ?_, hvu, hvl⟩
  simp only []
  split <;> rename_i hb
  · rw [if_pos hb] at hv
    rw [hv]; rfl
  · rw [if_neg hb] at hv
    rw [hv]; rfl

theorem calculateDiseaseRisks_eq (d : JSDate) (loc : LocationData) :
    ∃ v, calculateDiseaseRisks d loc = some v := by
  unfold calculateDiseaseRisks
  obtain ⟨h1, h2⟩ := adjustedMonth_range (isNorthernHemisphere loc.latitude) d.month
  obtain ⟨v, hv, -, -⟩ := diseaseRisks_table_isSome h1 h2
  refine ⟨⟨v.cardiovascular, v.mentalHealth, v.autoimmune, v.respiratory, v.infectious⟩, ?_⟩
  simp only []
  split <;> rename_i hb
  · rw [if_pos hb] at hv; rw [hv]; rfl
  · rw [if_neg hb] at hv; rw [hv]; rfl

theorem calculateVitaminDSynthesis_bounds (env : MathEnv) (loc : LocationData)
    (d : JSDate) : 0 ≤ calculateVitaminDSynthesis env loc d ∧
      calculateVitaminDSynthesis env loc d ≤ 100 := by
  unfold calculateVitaminDSynthesis
  exact clamp_bounds 100 _ (by norm_num)

theorem calculateRelativeAgeEffect_bounds (d : JSDate) (c : Str) :
    0 ≤ calculateRelativeAgeEffect d c ∧ calculateRelativeAgeEffect d c ≤ 100 := by
  unfold calculateRelativeAgeEffect
  refine ⟨le_max_left _ _, max_le (by norm_num) ?_⟩
  have h0 : (0 : ℤ) ≤ ((d.month.val : ℤ) + 1 - (schoolYearCutoffs c).getD 9 + 12) % 12 :=
    Int.emod_nonneg _ (by norm_num)
  have h0q : (0 : ℚ) ≤ ((((d.month.val : ℤ) + 1 - (schoolYearCutoffs c).getD 9 + 12) % 12 : ℤ) : ℚ) := by
    exact_mod_cast h0
  nlinarith


/-- A `min 100 (max 0 _)` clamp lies in `[0, 100]`. -/
theorem min_clamp (y : ℚ) : 0 ≤ min 100 (max 0 y) ∧ min 100 (max 0 y) ≤ 100 :=
  ⟨le_min (by norm_num) (le_max_left _ _), min_le_left _ _⟩

theorem calculateSeasonalRisk_eq (env : MathEnv) (d : JSDate) (loc : LocationData) :
    ∃ sr, calculateSeasonalRisk env d loc = some sr ∧
      0 ≤ sr.vitaminDScore ∧ sr.vitaminDScore ≤ 100 ∧
      0 ≤ sr.infectiousRisk ∧ sr.infectiousRisk ≤ 175 ∧
      0 ≤ sr.relativeAgeAdvantage ∧ sr.relativeAgeAdvantage ≤ 100 ∧
      0 ≤ sr.overallSeasonalScore ∧ sr.overallSeasonalScore ≤ 100 := by
  obtain ⟨q, hq, hqu, hql⟩ := calculateInfectiousRisk_eq d loc
  obtain ⟨v, hv⟩ := calculateDiseaseRisks_eq d loc
  obtain ⟨hvd0, hvd100⟩ := calculateVitaminDSynthesis_bounds env loc d
  obtain ⟨hra0, hra100⟩ := calculateRelativeAgeEffect_bounds d (loc.country.getD "US".toList)
  unfold calculateSeasonalRisk
  rw [hq, hv]
  simp only [Option.bind_eq_bind, Option.some_bind]
  refine ⟨_, rfl, jsRound_nonneg hvd0, jsRound_le (by push_cast; linarith),
    jsRound_nonneg (le_max_left _ _),
    jsRound_le (by push_cast; exact max_le (by norm_num) (by linarith)),
    jsRound_nonneg hra0, jsRound_le (by push_cast; linarith), ?_, ?_⟩
  · refine jsRound_nonneg ?_
    obtain ⟨hi0, hi1⟩ := min_clamp ((q - 0.8) * 500)
    obtain ⟨hc0, hc1⟩ := min_clamp ((v.cardiovascular - 0.9) * 500)
    obtain ⟨hm0, hm1⟩ := min_clamp ((v.mentalHealth - 0.85) * 400)
    obtain ⟨ha0, ha1⟩ := min_clamp (|v.autoimmune - 1.0| * 1000)
    linarith
  · refine jsRound_le ?_
    obtain ⟨hi0, hi1⟩ := min_clamp ((q - 0.8) * 500)
    obtain ⟨hc0, hc1⟩ := min_clamp ((v.cardiovascular - 0.9) * 500)
    obtain ⟨hm0, hm1⟩ := min_clamp ((v.mentalHealth - 0.85) * 400)
    obtain ⟨ha0, ha1⟩ := min_clamp (|v.autoimmune - 1.0| * 1000)
    push_cast
    linarith

/-! ## Solar pipeline lemmas -/

theorem getSolarCycleForDate_len_ne (d : JSDate) :
    (getSolarCycleForDate d).endYear - (getSolarCycleForDate d).startYear ≠ 0 := by
  unfold getSolarCycleForDate
  cases hf : SOLAR_CYCLES.find? (fun cycle => cycleContainsYear cycle d.year) with
  | some c =>
    simp only [hf]
    have hm : c ∈ SOLAR_CYCLES := List.mem_of_find?_eq_some hf
    fin_cases hm <;> decide
  | none =>
    simp only [hf, predictFutureSolarCycle]
    split
    · simp
    · decide

theorem calculateSunspotNumber_eq (env : MathEnv) (rand : ℚ) (d : JSDate) :
    ∃ s : ℤ, calculateSunspotNumber env rand d = some s ∧ 0 ≤ s := by
  unfold calculateSunspotNumber
  rw [if_neg (getSolarCycleForDate_len_ne d)]
  refine ⟨_, rfl, le_jsRound ?_⟩
  push_cast
  exact le_max_left _ _

theorem lifespanImpactRaw_bounds {ns : ℚ} (h0 : 0 ≤ ns) (h200 : ns ≤ 200) :
    -6.6 ≤ (if ns < 30 then 0.5 - ns / 30 * 0.8
            else if ns < 120 then -0.3 - (ns - 30) / 90 * 4.5
            else -4.8 - (ns - 120) / 80 * 1.8) ∧
      (if ns < 30 then 0.5 - ns / 30 * 0.8
       else if ns < 120 then -0.3 - (ns - 30) / 90 * 4.5
       else -4.8 - (ns - 120) / 80 * 1.8) ≤ 0.5 := by
  split_ifs with h1 h2 <;> constructor <;> push_neg at * <;> linarith

theorem monthVariation_bounds (m : Fin 12) :
    -0.6 ≤ ((m.val : ℚ) - 6) * 0.1 ∧ ((m.val : ℚ) - 6) * 0.1 ≤ 0.5 := by
  have h11 : (m.val : ℚ) ≤ 11 := by exact_mod_cast Nat.lt_succ_iff.mp m.isLt
  have h0 : (0 : ℚ) ≤ (m.val : ℚ) := Nat.cast_nonneg _
  constructor <;> linarith

theorem calculateUVFromSolarActivity_bounds {x : ℚ} (h : 0 ≤ x) :
    5 ≤ calculateUVFromSolarActivity x ∧ calculateUVFromSolarActivity x ≤ 11 := by
  unfold calculateUVFromSolarActivity
  exact ⟨le_min (by norm_num) (by linarith), min_le_left _ _⟩

theorem calculateSolarActivityData_eq (env : MathEnv) (r1 r2 r3 : ℚ) (d : JSDate) :
    ∃ a, calculateSolarActivityData env r1 r2 r3 d = some a ∧
      0 ≤ a.sunspotNumber ∧
      -7.2 ≤ a.lifespanImpact ∧ a.lifespanImpact ≤ 1 ∧
      5 ≤ a.uvRadiationLevel ∧ a.uvRadiationLevel ≤ 11 := by
  obtain ⟨s, hs, hs0⟩ := calculateSunspotNumber_eq env r1 d
  unfold calculateSolarActivityData
  rw [hs]
  simp only [Option.some_bind]
  rw [if_neg (getSolarCycleForDate_len_ne d)]
  have hsq : (0 : ℚ) ≤ (s : ℚ) := by exact_mod_cast hs0
  set ns : ℚ := max 0 (min 200 (s : ℚ)) with hns
  have hns0 : (0 : ℚ) ≤ ns := le_max_left _ _
  have hns200 : ns ≤ 200 := max_le (by norm_num) (min_le_left _ _)
  set li : ℚ := (if ns < 30 then 0.5 - ns / 30 * 0.8
      else if ns < 120 then -0.3 - (ns - 30) / 90 * 4.5
      else -4.8 - (ns - 120) / 80 * 1.8) with hli
  set mv : ℚ := ((d.month.val : ℚ) - 6) * 0.1 with hmv
  set z : ℤ := jsRound ((li + mv) * 10) with hz
  obtain ⟨hli1, hli2⟩ := lifespanImpactRaw_bounds hns0 hns200
  obtain ⟨hmv1, hmv2⟩ := monthVariation_bounds d.month
  obtain ⟨huv1, huv2⟩ := calculateUVFromSolarActivity_bounds hsq
  rw [← hli] at hli1 hli2
  rw [← hmv] at hmv1 hmv2
  have hz1 : -72 ≤ z := hz ▸ le_jsRound (by push_cast; linarith)
  have hz2 : z ≤ 10 := hz ▸ jsRound_le (by push_cast; linarith)
  have hz1q : ((-72 : ℤ) : ℚ) ≤ (z : ℚ) := by exact_mod_cast hz1
  have hz2q : (z : ℚ) ≤ ((10 : ℤ) : ℚ) := by exact_mod_cast hz2
  refine ⟨_, rfl, hs0, ?_, ?_, huv1, huv2⟩ <;> push_cast at hz1q hz2q ⊢ <;> linarith

/-! ## Engine lemmas -/

theorem getSeasonalRecommendations_eq (env : MathEnv) (d : JSDate) (loc : LocationData) :
    ∃ l, getSeasonalRecommendations env d loc = some l ∧
      ∀ x ∈ l,
        x = "Consider vitamin D supplementation during pregnancy and early infancy".toList ∨
        x = "Take extra precautions against infections during the first 6 months".toList ∨
        x = "Child may benefit from delayed school entry or summer programs".toList ∨
        x = "Monitor cardiovascular health markers throughout life".toList ∨
        x = "Be aware of increased mental health risks and ensure good support systems".toList := by
  obtain ⟨sr, hsr, -⟩ := calculateSeasonalRisk_eq env d loc
  unfold getSeasonalRecommendations
  rw [hsr]
  refine ⟨_, rfl, ?_⟩
  intro x hx
  simp only [List.mem_append] at hx
  rcases hx with ((((h | h) | h) | h) | h) <;> revert h <;> split <;> intro h <;> simp_all

theorem assembleTimingResult_seasonalData (a : SolarActivityData)
    (sr : SeasonalRiskData) (recs : List Str) (loc : LocationData) (d : JSDate) :
    (assembleTimingResult a sr recs loc d).seasonalData =
      ⟨sr.vitaminDScore, sr.infectiousRisk, sr.relativeAgeAdvantage,
       sr.overallSeasonalScore⟩ := rfl

theorem assembleTimingResult_riskFactors (a : SolarActivityData)
    (sr : SeasonalRiskData) (recs : List Str) (loc : LocationData) (d : JSDate) :
    (assembleTimingResult a sr recs loc d).riskFactors =
      engineRiskFactors a sr loc d := rfl

theorem assembleTimingResult_overallScore (a : SolarActivityData)
    (sr : SeasonalRiskData) (recs : List Str) (loc : LocationData) (d : JSDate) :
    (assembleTimingResult a sr recs loc d).overallScore =
      jsRound (max 0 (100 - |a.lifespanImpact| * 15) * WEIGHTS.solar +
        (sr.overallSeasonalScore : ℚ) * WEIGHTS.seasonal +
        max 0 (100 - |loc.latitude|) * WEIGHTS.geographic +
        75 * WEIGHTS.environmental) := rfl

theorem assembleTimingResult_recommendations (a : SolarActivityData)
    (sr : SeasonalRiskData) (recs : List Str) (loc : LocationData) (d : JSDate) :
    ∃ score, (assembleTimingResult a sr recs loc d).recommendations =
      jsSortRecs (jsSetDedup (engineRecommendations a sr
        (calculateMentalHealthRisk a.sunspotNumber) |loc.latitude| recs score d)) :=
  ⟨_, rfl⟩

theorem calculateOptimalTiming_eq (env : MathEnv) (r1 r2 r3 : ℚ)
    (loc : LocationData) (d : JSDate) :
    ∃ a sr recs,
      calculateSolarActivityData env r1 r2 r3 d = some a ∧
      calculateSeasonalRisk env d loc = some sr ∧
      getSeasonalRecommendations env d loc = some recs ∧
      0 ≤ a.sunspotNumber ∧ -7.2 ≤ a.lifespanImpact ∧ a.lifespanImpact ≤ 1 ∧
      5 ≤ a.uvRadiationLevel ∧ a.uvRadiationLevel ≤ 11 ∧
      0 ≤ sr.vitaminDScore ∧ sr.vitaminDScore ≤ 100 ∧
      0 ≤ sr.infectiousRisk ∧ sr.infectiousRisk ≤ 175 ∧
      0 ≤ sr.relativeAgeAdvantage ∧ sr.relativeAgeAdvantage ≤ 100 ∧
      0 ≤ sr.overallSeasonalScore ∧ sr.overallSeasonalScore ≤ 100 ∧
      calculateOptimalTiming env r1 r2 r3 loc d =
        some (assembleTimingResult a sr recs loc d) := by
  obtain ⟨a, ha, h1, h2, h3, h4, h5⟩ := calculateSolarActivityData_eq env r1 r2 r3 d
  obtain ⟨sr, hsr, g1, g2, g3, g4, g5, g6, g7, g8⟩ := calculateSeasonalRisk_eq env d loc
  obtain ⟨recs, hrecs, -⟩ := getSeasonalRecommendations_eq env d loc
  refine ⟨a, sr, recs, ha, hsr, hrecs, h1, h2, h3, h4, h5,
    g1, g2, g3, g4, g5, g6, g7, g8, ?_⟩
  unfold calculateOptimalTiming
  rw [ha, hsr, hrecs]
  rfl

/-! ## Sorting and deduplication lemmas -/

theorem mem_insertBy {α : Type} (le : α → α → Bool) (x y : α) (l : List α) :
    y ∈ insertBy le x l ↔ y = x ∨ y ∈ l := by
  induction l with
  | nil => simp [insertBy]
  | cons z zs ih =>
    unfold insertBy
    split
    · simp [List.mem_cons]
    · simp [List.mem_cons, ih]
      tauto

theorem mem_sortBy {α : Type} (le : α → α → Bool) (y : α) (l : List α) :
    y ∈ sortBy le l ↔ y ∈ l := by
  induction l with
  | nil => simp [sortBy]
  | cons z zs ih => simp [sortBy, mem_insertBy, ih, List.mem_cons]

theorem length_insertBy {α : Type} (le : α → α → Bool) (x : α) (l : List α) :
    (insertBy le x l).length = l.length + 1 := by
  induction l with
  | nil => rfl
  | cons z zs ih => unfold insertBy; split <;> simp [ih]

theorem length_sortBy {α : Type} (le : α → α → Bool) (l : List α) :
    (sortBy le l).length = l.length := by
  induction l with
  | nil => rfl
  | cons z zs ih =>
    unfold sortBy
    rw [length_insertBy, ih]
    simp

theorem mem_dedupAux (seen l : List Str) (x : Str) :
    x ∈ dedupAux seen l → x ∈ l := by
  induction l generalizing seen with
  | nil => simp [dedupAux]
  | cons y ys ih =>
    unfold dedupAux
    split
    · intro h
      exact List.mem_cons_of_mem _ (ih _ h)
    · intro h
      rcases List.mem_cons.mp h with rfl | h'
      · exact List.mem_cons_self _ _
      · exact List.mem_cons_of_mem _ (ih _ h')

theorem mem_jsSetDedup {l : List Str} {x : Str} (h : x ∈ jsSetDedup l) : x ∈ l :=
  mem_dedupAux [] l x h

/-- The priority relation the final recommendation list satisfies: a string
containing the critical marker never appears after one that lacks it. -/
def critRel (a b : Str) : Prop :=
  includesStr b critMarker = true → includesStr a critMarker = true

theorem recBeforeOrEqual_true_of_crit {a b : Str}
    (h : includesStr a critMarker = true) : recBeforeOrEqual a b = true := by
  unfold recBeforeOrEqual
  rw [if_pos h]

theorem crit_false_of_not_before {a b : Str} (h : recBeforeOrEqual a b = false) :
    includesStr a critMarker = false := by
  by_contra hc
  rw [Bool.not_eq_false] at hc
  rw [recBeforeOrEqual_true_of_crit hc] at h
  cases h

theorem crit_false_of_before {a b : Str} (ha : includesStr a critMarker = false)
    (h : recBeforeOrEqual a b = true) : includesStr b critMarker = false := by
  unfold recBeforeOrEqual at h
  rw [if_neg (by simp [ha])] at h
  by_contra hb
  rw [Bool.not_eq_false] at hb
  rw [if_pos hb] at h
  cases h

theorem pairwise_insertRec (x : Str) (l : List Str) (h : l.Pairwise critRel) :
    (insertBy recBeforeOrEqual x l).Pairwise critRel := by
  induction l with
  | nil => simp [insertBy, critRel]
  | cons y ys ih =>
    rcases List.pairwise_cons.mp h with ⟨hy, hys⟩
    unfold insertBy
    split <;> rename_i hle
    · refine List.pairwise_cons.mpr ⟨?_, h⟩
      intro z hz hcz
      by_cases hx : includesStr x critMarker = true
      · exact hx
      · exfalso
        have hyf : includesStr y critMarker = false :=
          crit_false_of_before (Bool.not_eq_true _ ▸ hx) hle
        rcases List.mem_cons.mp hz with rfl | hz'
        · rw [hcz] at hyf; cases hyf
        · rw [hy z hz' hcz] at hyf; cases hyf
    · refine List.pairwise_cons.mpr ⟨?_, ih hys⟩
      intro z hz hcz
      rcases (mem_insertBy _ _ _ _).mp hz with rfl | hz'
      · exfalso
        rw [crit_false_of_not_before (Bool.not_eq_true _ ▸ hle)] at hcz
        cases hcz
      · exact hy z hz' hcz

theorem pairwise_jsSortRecs (l : List Str) : (jsSortRecs l).Pairwise critRel := by
  unfold jsSortRecs
  induction l with
  | nil => simp [sortBy]
  | cons x xs ih => exact pairwise_insertRec x _ ih

/-! ## Risk-factor impact bounds -/

theorem jsRound_bounds {q : ℚ} (h1 : -100 ≤ q) (h2 : q ≤ 100) :
    -100 ≤ jsRound q ∧ jsRound q ≤ 100 :=
  ⟨le_jsRound (by push_cast; linarith), jsRound_le (by push_cast; linarith)⟩

theorem solarRiskFactor_impact {li : ℚ} (h1 : -7.2 ≤ li) (h2 : li ≤ 1) :
    -100 ≤ (solarRiskFactor li).impact ∧ (solarRiskFactor li).impact ≤ 100 := by
  have habs1 : |li| ≤ 7.2 := abs_le.mpr ⟨by linarith, by linarith⟩
  have habs0 : (0 : ℚ) ≤ |li| := abs_nonneg li
  obtain ⟨c1, c2⟩ := jsRound_bounds (q := |li| * 12) (by linarith) (by linarith)
  simp only [solarRiskFactor]
  split_ifs with ha h3 hb
  · show -100 ≤ -jsRound (|li| * 12) ∧ -jsRound (|li| * 12) ≤ 100
    constructor <;> omega
  · show -100 ≤ -jsRound (|li| * 12) ∧ -jsRound (|li| * 12) ≤ 100
    constructor <;> omega
  · exact jsRound_bounds (q := li * 15) (by linarith) (by linarith)
  · exact jsRound_bounds (q := li * 5) (by linarith) (by linarith)

theorem uvRiskFactors_impact {uv : ℚ} (h1 : 5 ≤ uv) (h2 : uv ≤ 11) :
    ∀ f ∈ uvRiskFactors uv, -100 ≤ f.impact ∧ f.impact ≤ 100 := by
  intro f hf
  simp only [uvRiskFactors] at hf
  obtain ⟨c1, c2⟩ := jsRound_bounds (q := (uv - 6) * 5) (by linarith) (by linarith)
  have habs : |jsRound ((uv - 6) * 5)| ≤ 100 := abs_le.mpr ⟨c1, c2⟩
  have habs0 : (0 : ℤ) ≤ |jsRound ((uv - 6) * 5)| := abs_nonneg _
  split at hf
  · have hfe := List.mem_singleton.mp hf
    subst hfe
    simp only []
    split_ifs <;> constructor <;> linarith
  · cases hf

theorem vitaminDRiskFactor_impact {vD : ℤ} (h1 : 0 ≤ vD) (h2 : vD ≤ 100) :
    -100 ≤ (vitaminDRiskFactor vD).impact ∧ (vitaminDRiskFactor vD).impact ≤ 100 := by
  unfold vitaminDRiskFactor
  have hq1 : (0 : ℚ) ≤ (vD : ℚ) := by exact_mod_cast h1
  have hq2 : (vD : ℚ) ≤ 100 := by exact_mod_cast h2
  exact jsRound_bounds (q := ((vD : ℚ) - 60) * 0.5) (by linarith) (by linarith)

theorem infectionRiskFactors_impact {ir : ℤ} (h1 : 0 ≤ ir) (h2 : ir ≤ 175) :
    ∀ f ∈ infectionRiskFactors ir, -100 ≤ f.impact ∧ f.impact ≤ 100 := by
  intro f hf
  simp only [infectionRiskFactors] at hf
  have hq1 : (0 : ℚ) ≤ (ir : ℚ) := by exact_mod_cast h1
  have hq2 : (ir : ℚ) ≤ 175 := by exact_mod_cast h2
  obtain ⟨c1, c2⟩ := jsRound_bounds (q := ((ir : ℚ) - 50) * 0.6) (by linarith) (by linarith)
  have habs : |jsRound (((ir : ℚ) - 50) * 0.6)| ≤ 100 := abs_le.mpr ⟨c1, c2⟩
  have habs0 : (0 : ℤ) ≤ |jsRound (((ir : ℚ) - 50) * 0.6)| := abs_nonneg _
  split at hf
  · have hfe := List.mem_singleton.mp hf
    subst hfe
    simp only []
    split_ifs <;> constructor <;> linarith
  · cases hf

theorem schoolAgeRiskFactors_impact {ra : ℤ} (h1 : 0 ≤ ra) (h2 : ra ≤ 100) :
    ∀ f ∈ schoolAgeRiskFactors ra, -100 ≤ f.impact ∧ f.impact ≤ 100 := by
  intro f hf
  simp only [schoolAgeRiskFactors] at hf
  have hq1 : (0 : ℚ) ≤ (ra : ℚ) := by exact_mod_cast h1
  have hq2 : (ra : ℚ) ≤ 100 := by exact_mod_cast h2
  obtain ⟨c1, c2⟩ := jsRound_bounds (q := ((ra : ℚ) - 50) * 0.8) (by linarith) (by linarith)
  split at hf
  · have hfe := List.mem_singleton.mp hf
    subst hfe
    exact ⟨c1, c2⟩
  · cases hf

theorem latitudeRiskFactor_impact {lat : ℚ} (h1 : -90 ≤ lat) (h2 : lat ≤ 90) :
    -100 ≤ (latitudeRiskFactor lat).impact ∧ (latitudeRiskFactor lat).impact ≤ 100 := by
  unfold latitudeRiskFactor
  have habs : |lat| ≤ 90 := abs_le.mpr ⟨h1, h2⟩
  have habs0 : (0 : ℚ) ≤ |lat| := abs_nonneg lat
  exact jsRound_bounds (q := (35 - |lat|) * 0.6) (by linarith) (by linarith)

theorem environmentalRiskFactor_impact (m : Fin 12) :
    -100 ≤ (environmentalRiskFactor m).impact ∧
      (environmentalRiskFactor m).impact ≤ 100 := by
  fin_cases m <;> exact ⟨by decide, by decide⟩

theorem engineRiskFactors_impact (a : SolarActivityData) (sr : SeasonalRiskData)
    (loc : LocationData) (d : JSDate)
    (hli1 : -7.2 ≤ a.lifespanImpact) (hli2 : a.lifespanImpact ≤ 1)
    (huv1 : 5 ≤ a.uvRadiationLevel) (huv2 : a.uvRadiationLevel ≤ 11)
    (hvd1 : 0 ≤ sr.vitaminDScore) (hvd2 : sr.vitaminDScore ≤ 100)
    (hir1 : 0 ≤ sr.infectiousRisk) (hir2 : sr.infectiousRisk ≤ 175)
    (hra1 : 0 ≤ sr.relativeAgeAdvantage) (hra2 : sr.relativeAgeAdvantage ≤ 100)
    (hlat1 : -90 ≤ loc.latitude) (hlat2 : loc.latitude ≤ 90) :
    ∀ f ∈ engineRiskFactors a sr loc d, -100 ≤ f.impact ∧ f.impact ≤ 100 := by
  intro f hf
  unfold engineRiskFactors at hf
  simp only [List.mem_append, List.mem_singleton] at hf
  rcases hf with ((((((hf | hf) | hf) | hf) | hf) | hf) | hf)
  · exact hf ▸ solarRiskFactor_impact hli1 hli2
  · exact uvRiskFactors_impact huv1 huv2 f hf
  · exact hf ▸ vitaminDRiskFactor_impact hvd1 hvd2
  · exact infectionRiskFactors_impact hir1 hir2 f hf
  · exact schoolAgeRiskFactors_impact hra1 hra2 f hf
  · exact hf ▸ latitudeRiskFactor_impact hlat1 hlat2
  · exact hf ▸ environmentalRiskFactor_impact d.month

/-! ## The mental-health recommendation is unreachable -/

theorem lit_append_ne {a x b : Str} (k : ℕ) (hk : k ≤ a.length)
    (hne : a.take k ≠ b.take k) : ¬b = a ++ x := fun he =>
  hne (by rw [he, List.take_append_of_le_length hk])

theorem calculateMentalHealthRisk_cases (s : ℤ) :
    calculateMentalHealthRisk s = 1 ∨ calculateMentalHealthRisk s = 1.3 := by
  simp only [calculateMentalHealthRisk]
  split_ifs
  · right
    norm_num
  · left
    norm_num

theorem calculateMentalHealthRisk_le (s : ℤ) : calculateMentalHealthRisk s ≤ 1.3 := by
  rcases calculateMentalHealthRisk_cases s with h | h
  · rw [h]
    norm_num
  · rw [h]

theorem mentalHealthRecs_empty {mhm : ℚ} (h : mhm ≤ 1.3) (m : Fin 12) :
    mentalHealthRecs mhm m = [] := by
  simp only [mentalHealthRecs]
  rw [if_neg (by linarith)]

theorem mentalCare_not_mem_solarRecs (li : ℚ) : mentalCareStr ∉ solarRecs li := by
  intro h
  simp only [solarRecs] at h
  split_ifs at h <;>
    simp only [List.mem_singleton, List.not_mem_nil] at h <;>
    rw [List.append_assoc] at h
  · exact lit_append_ne 1 (by decide) (by decide) h
  · exact lit_append_ne 2 (by decide) (by decide) h
  · exact lit_append_ne 2 (by decide) (by decide) h

theorem mentalCare_not_mem_vitaminDRecs (vD : ℤ) (m : Fin 12) :
    mentalCareStr ∉ vitaminDRecs vD m := by
  intro h
  simp only [vitaminDRecs] at h
  split_ifs at h <;> simp only [List.mem_cons, List.mem_singleton, List.not_mem_nil,
    or_false] at h
  · rcases h with h | h
    · exact lit_append_ne 1 (by decide) (by decide) h
    · exact absurd h (by decide)
  · rcases h with h | h
    · exact absurd h (by decide)
    · exact lit_append_ne 2 (by decide) (by decide) h
  · exact absurd h (by decide)

theorem mentalCare_not_mem_infectionRecs (ir : ℤ) (m : Fin 12) :
    mentalCareStr ∉ infectionRecs ir m := by
  intro h
  simp only [infectionRecs] at h
  split_ifs at h <;> simp only [List.mem_cons, List.mem_singleton, List.not_mem_nil,
    or_false] at h
  · rcases h with h | h | h
    · exact absurd h (by decide)
    · exact absurd h (by decide)
    · rw [List.append_assoc] at h
      exact lit_append_ne 1 (by decide) (by decide) h
  · exact absurd h (by decide)

theorem mentalCare_not_mem_schoolAgeRecs (ra : ℤ) :
    mentalCareStr ∉ schoolAgeRecs ra := by
  intro h
  simp only [schoolAgeRecs] at h
  split_ifs at h <;> simp only [List.mem_cons, List.mem_singleton, List.not_mem_nil,
    or_false] at h <;> rcases h with h | h <;> exact absurd h (by decide)

theorem mentalCare_not_mem_latitudeRecs (dfe : ℚ) :
    mentalCareStr ∉ latitudeRecs dfe := by
  intro h
  simp only [latitudeRecs] at h
  split_ifs at h <;> simp only [List.mem_cons, List.mem_singleton,
    List.not_mem_nil, or_false] at h
  rcases h with h | h <;> exact absurd h (by decide)

theorem mentalCare_not_mem_scoreTierRecs (score : ℤ) :
    mentalCareStr ∉ scoreTierRecs score := by
  intro h
  simp only [scoreTierRecs] at h
  split_ifs at h <;> simp only [List.mem_singleton] at h <;> exact absurd h (by decide)

theorem mentalCare_not_mem_engineRecommendations (a : SolarActivityData)
    (sr : SeasonalRiskData) (dfe : ℚ) (recs : List Str) (score : ℤ) (d : JSDate)
    (hrecs : ∀ x ∈ recs,
      x = "Consider vitamin D supplementation during pregnancy and early infancy".toList ∨
      x = "Take extra precautions against infections during the first 6 months".toList ∨
      x = "Child may benefit from delayed school entry or summer programs".toList ∨
      x = "Monitor cardiovascular health markers throughout life".toList ∨
      x = "Be aware of increased mental health risks and ensure good support systems".toList) :
    mentalCareStr ∉ engineRecommendations a sr
      (calculateMentalHealthRisk a.sunspotNumber) dfe recs score d := by
  intro h
  simp only [engineRecommendations, List.mem_append,
    mentalHealthRecs_empty (calculateMentalHealthRisk_le a.sunspotNumber) d.month,
    List.not_mem_nil, or_false, false_or] at h
  rcases h with ((((((h | h) | h) | h) | h) | h) | h)
  · exact mentalCare_not_mem_solarRecs _ h
  · exact mentalCare_not_mem_vitaminDRecs _ _ h
  · exact mentalCare_not_mem_infectionRecs _ _ h
  · exact mentalCare_not_mem_schoolAgeRecs _ h
  · exact mentalCare_not_mem_latitudeRecs _ h
  · rcases hrecs _ h with h' | h' | h' | h' | h' <;> exact absurd h' (by decide)
  · exact mentalCare_not_mem_scoreTierRecs _ h

/-! ## Range-analysis counting lemmas -/

theorem mapMOption_length {α β : Type} (f : α → Option β) :
    ∀ (l : List α) (l' : List β), mapMOption f l = some l' → l'.length = l.length := by
  intro l
  induction l with
  | nil =>
    intro l' h
    simp only [mapMOption] at h
    cases h
    rfl
  | cons x xs ih =>
    intro l' h
    simp only [mapMOption] at h
    rcases hfx : f x with _ | y <;> rw [hfx] at h
    · simp at h
    · rcases hm : mapMOption f xs with _ | ys <;> rw [hm] at h
      · simp at h
      · simp only [Option.some_bind, Option.map_some'] at h
        cases h
        simp [ih ys hm]

theorem monthOffsets_length (N : ℕ) : (monthOffsets N).length = 2 * N + 1 := by
  unfold monthOffsets
  simp only [List.length_map, List.length_range]

theorem topQuartileCount_le (n : ℕ) : (⌈(n : ℚ) * 0.25⌉).toNat ≤ n := by
  have h1 : ⌈(n : ℚ) * 0.25⌉ ≤ (n : ℤ) := Int.ceil_le.mpr (by
    push_cast
    nlinarith [Nat.cast_nonneg (α := ℚ) n])
  omega

/-- C3: for every location, center date and `rangeMonths = N`, the analysis
loop of `analyzeTimingRange` performs exactly `2N+1` monthly
`calculateOptimalTiming` evaluations (one per entry of `monthOffsets N`,
which has length `2N+1`), and the returned `optimalWindows` list has length
exactly `⌈(2N+1) · 0.25⌉`. -/
theorem analyzeTimingRange_counts (env : MathEnv) (draws : ℤ → ℚ × ℚ × ℚ)
    (currentDraw : ℚ × ℚ × ℚ) (loc : LocationData) (d : JSDate) (N : ℕ)
    (ta : TimingAnalysis)
    (h : analyzeTimingRange env draws currentDraw loc d N = some ta) :
    (monthOffsets N).length = 2 * N + 1 ∧
      ta.optimalWindows.length = (⌈((2 * N + 1 : ℕ) : ℚ) * 0.25⌉).toNat := by
  refine ⟨monthOffsets_length N, ?_⟩
  unfold analyzeTimingRange at h
  rcases hm : mapMOption (fun i => calculateOptimalTiming env (draws i).1 (draws i).2.1
      (draws i).2.2 loc (addMonths d i)) (monthOffsets N) with _ | analyses <;>
    rw [hm] at h
  · simp at h
  · have hlen : analyses.length = 2 * N + 1 :=
      (mapMOption_length _ _ _ hm).trans (monthOffsets_length N)
    simp only [Option.bind_eq_bind, Option.some_bind] at h
    have hslen : (sortBy scoreBeforeOrEqual analyses).length = 2 * N + 1 :=
      (length_sortBy _ _).trans hlen
    rcases hh : (sortBy scoreBeforeOrEqual analyses).head? with _ | best <;>
        rw [hh] at h
    · simp at h
    · rcases hg : (sortBy scoreBeforeOrEqual analyses).getLast? with _ | worst <;>
        rw [hg] at h
      · simp at h
      · obtain ⟨a, sr, recs, -, -, -, -, -, -, -, -, -, -, -, -, -, -, -, -, hct⟩ :=
          calculateOptimalTiming_eq env currentDraw.1 currentDraw.2.1 currentDraw.2.2 loc d
        rw [hct] at h
        simp only [Option.some_bind, Option.some_inj] at h
        rw [Option.pure_def, Option.some_inj] at h
        subst h
        simp only [List.length_take, hlen, hslen]
        exact min_eq_left (topQuartileCount_le (2 * N + 1))

/-! ## Solar-cycle calendar coverage -/

theorem SOLAR_CYCLES_getLast (h : SOLAR_CYCLES ≠ []) :
    SOLAR_CYCLES.getLast h = ⟨25, 2019, 2024, 2030, 137, "ascending".toList⟩ := rfl

theorem getSolarCycleForDate_contains {y : ℤ} (hy : 1964 ≤ y) (m : Fin 12) :
    cycleContainsYear (getSolarCycleForDate ⟨y, m⟩) y = true := by
  unfold getSolarCycleForDate
  cases hf : SOLAR_CYCLES.find? (fun cycle => cycleContainsYear cycle (JSDate.mk y m).year) with
  | some c =>
    simp only [hf]
    simpa using List.find?_some hf
  | none =>
    simp only [hf]
    have hnc : ∀ c ∈ SOLAR_CYCLES, ¬cycleContainsYear c y = true := by
      intro c hc
      simpa using List.find?_eq_none.mp hf c hc
    have hy30 : 2030 < y := by
      by_contra hle
      push_neg at hle
      have hcase : (1964 ≤ y ∧ y ≤ 1976) ∨ (1976 ≤ y ∧ y ≤ 1986) ∨
          (1986 ≤ y ∧ y ≤ 1996) ∨ (1996 ≤ y ∧ y ≤ 2008) ∨
          (2008 ≤ y ∧ y ≤ 2019) ∨ (2019 ≤ y ∧ y ≤ 2030) := by omega
      rcases hcase with h | h | h | h | h | h
      · exact hnc ⟨20, 1964, 1968, 1976, 156, "minimum".toList⟩ (by simp [SOLAR_CYCLES])
          (by simp only [cycleContainsYear, Bool.and_eq_true, decide_eq_true_eq]; exact h)
      · exact hnc ⟨21, 1976, 1979, 1986, 232, "minimum".toList⟩ (by simp [SOLAR_CYCLES])
          (by simp only [cycleContainsYear, Bool.and_eq_true, decide_eq_true_eq]; exact h)
      · exact hnc ⟨22, 1986, 1989, 1996, 212, "minimum".toList⟩ (by simp [SOLAR_CYCLES])
          (by simp only [cycleContainsYear, Bool.and_eq_true, decide_eq_true_eq]; exact h)
      · exact hnc ⟨23, 1996, 2000, 2008, 180, "minimum".toList⟩ (by simp [SOLAR_CYCLES])
          (by simp only [cycleContainsYear, Bool.and_eq_true, decide_eq_true_eq]; exact h)
      · exact hnc ⟨24, 2008, 2012, 2019, 146, "minimum".toList⟩ (by simp [SOLAR_CYCLES])
          (by simp only [cycleContainsYear, Bool.and_eq_true, decide_eq_true_eq]; exact h)
      · exact hnc ⟨25, 2019, 2024, 2030, 137, "ascending".toList⟩ (by simp [SOLAR_CYCLES])
          (by simp only [cycleContainsYear, Bool.and_eq_true, decide_eq_true_eq]; exact h)
    simp only [predictFutureSolarCycle, SOLAR_CYCLES_getLast]
    rw [if_pos (by show (2030 : ℤ) < (JSDate.mk y m).year; exact hy30)]
    have hyq : (2030 : ℚ) < (y : ℚ) := by exact_mod_cast hy30
    have hca1 : 1 ≤ ⌈((y - 2030 : ℤ) : ℚ) / 11⌉ := by
      have hpos : (0 : ℚ) < ((y - 2030 : ℤ) : ℚ) / 11 := by
        apply div_pos _ (by norm_num)
        push_cast
        linarith
      exact Int.ceil_pos.mpr hpos
    have hup : y - 2030 ≤ 11 * ⌈((y - 2030 : ℤ) : ℚ) / 11⌉ := by
      have h1 : ((y - 2030 : ℤ) : ℚ) / 11 ≤ (⌈((y - 2030 : ℤ) : ℚ) / 11⌉ : ℚ) :=
        Int.le_ceil _
      have h2 : ((y - 2030 : ℤ) : ℚ) ≤ 11 * (⌈((y - 2030 : ℤ) : ℚ) / 11⌉ : ℚ) := by
        rw [div_le_iff₀ (by norm_num : (0:ℚ) < 11)] at h1
        linarith
      exact_mod_cast h2
    have hlow : 11 * (⌈((y - 2030 : ℤ) : ℚ) / 11⌉ - 1) < y - 2030 := by
      have h1 : (⌈((y - 2030 : ℤ) : ℚ) / 11⌉ : ℚ) < ((y - 2030 : ℤ) : ℚ) / 11 + 1 :=
        Int.ceil_lt_add_one _
      have h2 : 11 * ((⌈((y - 2030 : ℤ) : ℚ) / 11⌉ : ℚ) - 1) < ((y - 2030 : ℤ) : ℚ) := by
        have h3 : ((⌈((y - 2030 : ℤ) : ℚ) / 11⌉ : ℚ) - 1) < ((y - 2030 : ℤ) : ℚ) / 11 := by
          linarith
        have hid : 11 * (((y - 2030 : ℤ) : ℚ) / 11) = ((y - 2030 : ℤ) : ℚ) := by ring
        linarith
      exact_mod_cast h2
    simp only [cycleContainsYear, Bool.and_eq_true, decide_eq_true_eq]
    constructor <;> omega

theorem predictFutureSolarCycle_ordered (d : JSDate) :
    (predictFutureSolarCycle d).startYear < (predictFutureSolarCycle d).peakYear ∧
      (predictFutureSolarCycle d).peakYear < (predictFutureSolarCycle d).endYear := by
  simp only [predictFutureSolarCycle, SOLAR_CYCLES_getLast]
  split
  · constructor <;> simp
  · constructor <;> decide

/-! ## Concrete fixtures for witnesses and counterexamples -/

/-- A concrete environment: any total rational functions will do, since
every theorem above quantifies over the environment. -/
def envW : MathEnv := ⟨0, fun _ => 0, fun _ => 0, fun _ => 0⟩

/-- The spec's concrete scenario location (New York). -/
def locNY : LocationData :=
  ⟨40.7128, -74.0060, some "New York".toList, some "United States".toList, none, none⟩

/-- A Southern-Hemisphere location at latitude −40. -/
def locSouth : LocationData := ⟨-40, 151, none, none, none, none⟩

/-- July 2024 (0-based month 6). -/
def dJul : JSDate := ⟨2024, 6⟩

/-- January 2024 (0-based month 0). -/
def dJan : JSDate := ⟨2024, 0⟩

/-! ## Claims -/

/-- C1 counterexample: at a January date in a Northern-Hemisphere location
the returned `infectiousRisk` field is 175, which exceeds the claimed upper
bound 100 (the `Math.min(100, …)` clamp is applied only inside the overall
score, not to the returned field). -/
theorem c1_counterexample :
    (calculateSeasonalRisk envW dJan locNY).map (fun sr => sr.infectiousRisk) =
      some 175 ∧ ¬(175 : ℤ) ≤ 100 := by
  constructor
  · with_unfolding_all decide
  · decide

/-- C1 (amended): for every date and every location, the `infectiousRisk`
field of the `SeasonalRiskData` record returned by `calculateSeasonalRisk`
lies in `[0, 175]` (the un-clamped normalisation `(m − 0.8) · 500` of the
table's maximum multiplier 1.15). -/
theorem c1_infectiousRisk_bounds (env : MathEnv) (d : JSDate) (loc : LocationData)
    (sr : SeasonalRiskData) (h : calculateSeasonalRisk env d loc = some sr) :
    0 ≤ sr.infectiousRisk ∧ sr.infectiousRisk ≤ 175 := by
  obtain ⟨sr', h', -, -, hi0, hi175, -, -, -, -⟩ := calculateSeasonalRisk_eq env d loc
  rw [h] at h'
  obtain rfl := Option.some_inj.mp h'
  exact ⟨hi0, hi175⟩

theorem c1_witness :
    (calculateSeasonalRisk envW dJan locNY).isSome = true ∧
    0 ≤ ((calculateSeasonalRisk envW dJan locNY).map (fun sr => sr.infectiousRisk)).getD 0 ∧
    ((calculateSeasonalRisk envW dJan locNY).map (fun sr => sr.infectiousRisk)).getD 0 ≤ 175 := by
  refine ⟨by with_unfolding_all decide, ?_, ?_⟩ <;>
    rcases he : calculateSeasonalRisk envW dJan locNY with _ | sr
  · exact absurd he (by with_unfolding_all decide)
  · simp only [he, Option.map_some', Option.getD_some]
    exact (c1_infectiousRisk_bounds envW dJan locNY sr he).1
  · exact absurd he (by with_unfolding_all decide)
  · simp only [he, Option.map_some', Option.getD_some]
    exact (c1_infectiousRisk_bounds envW dJan locNY sr he).2

/-- C2: for every location with latitude in `[-90, 90]` and longitude in
`[-180, 180]`, every target date and every draw of the random noise, the
`overallScore` returned by `calculateOptimalTiming` is an integer in
`[0, 100]`. -/
theorem c2_overallScore_in_range (env : MathEnv) (r1 r2 r3 : ℚ)
    (loc : LocationData) (d : JSDate)
    (_hlat1 : -90 ≤ loc.latitude) (_hlat2 : loc.latitude ≤ 90)
    (_hlon1 : -180 ≤ loc.longitude) (_hlon2 : loc.longitude ≤ 180)
    (r : OptimalTimingResult)
    (h : calculateOptimalTiming env r1 r2 r3 loc d = some r) :
    0 ≤ r.overallScore ∧ r.overallScore ≤ 100 := by
  obtain ⟨a, sr, recs, -, -, -, -, -, -, -, -, -, -, -, -, -, -, hos0, hos100, heq⟩ :=
    calculateOptimalTiming_eq env r1 r2 r3 loc d
  rw [h] at heq
  obtain rfl := Option.some_inj.mp heq
  rw [assembleTimingResult_overallScore]
  have habs : (0 : ℚ) ≤ |a.lifespanImpact| * 15 :=
    mul_nonneg (abs_nonneg _) (by norm_num)
  have hsolar0 : (0 : ℚ) ≤ max 0 (100 - |a.lifespanImpact| * 15) := le_max_left _ _
  have hsolar100 : max 0 (100 - |a.lifespanImpact| * 15) ≤ 100 :=
    max_le (by norm_num) (by linarith)
  have hgeo0 : (0 : ℚ) ≤ max 0 (100 - |loc.latitude|) := le_max_left _ _
  have hgeo100 : max 0 (100 - |loc.latitude|) ≤ 100 :=
    max_le (by norm_num) (by linarith [abs_nonneg loc.latitude])
  have hsea0 : (0 : ℚ) ≤ (sr.overallSeasonalScore : ℚ) := by exact_mod_cast hos0
  have hsea100 : (sr.overallSeasonalScore : ℚ) ≤ 100 := by exact_mod_cast hos100
  constructor
  · refine le_jsRound ?_
    simp only [WEIGHTS]
    push_cast
    linarith
  · refine jsRound_le ?_
    simp only [WEIGHTS]
    push_cast
    linarith

theorem c2_witness :
    (calculateOptimalTiming envW 0 0 0 locNY dJul).isSome = true ∧
    0 ≤ ((calculateOptimalTiming envW 0 0 0 locNY dJul).map
      (fun r => r.overallScore)).getD 0 ∧
    ((calculateOptimalTiming envW 0 0 0 locNY dJul).map
      (fun r => r.overallScore)).getD 0 ≤ 100 := by
  refine ⟨by with_unfolding_all decide, ?_, ?_⟩ <;>
    rcases he : calculateOptimalTiming envW 0 0 0 locNY dJul with _ | r
  · exact absurd he (by with_unfolding_all decide)
  · simp only [he, Option.map_some', Option.getD_some]
    exact (c2_overallScore_in_range envW 0 0 0 locNY dJul
      (by with_unfolding_all decide) (by with_unfolding_all decide)
      (by with_unfolding_all decide) (by with_unfolding_all decide) r he).1
  · exact absurd he (by with_unfolding_all decide)
  · simp only [he, Option.map_some', Option.getD_some]
    exact (c2_overallScore_in_range envW 0 0 0 locNY dJul
      (by with_unfolding_all decide) (by with_unfolding_all decide)
      (by with_unfolding_all decide) (by with_unfolding_all decide) r he).2

theorem analyzeTimingRange_counts_witness :
    (analyzeTimingRange envW (fun _ => (0, 0, 0)) (0, 0, 0) locNY dJul 0).isSome = true ∧
    ((analyzeTimingRange envW (fun _ => (0, 0, 0)) (0, 0, 0) locNY dJul 0).map
      (fun ta => ta.optimalWindows.length)).getD 0 =
      (⌈((2 * 0 + 1 : ℕ) : ℚ) * 0.25⌉).toNat := by
  refine ⟨by with_unfolding_all decide, ?_⟩
  rcases he : analyzeTimingRange envW (fun _ => (0, 0, 0)) (0, 0, 0) locNY dJul 0 with _ | ta
  · exact absurd he (by with_unfolding_all decide)
  · simp only [he, Option.map_some', Option.getD_some]
    exact (analyzeTimingRange_counts envW (fun _ => (0, 0, 0)) (0, 0, 0) locNY dJul 0 ta he).2

/-- C4 counterexample: under the code's year-membership test
(`startYear ≤ year ≤ endYear`) the calendar year 1976 belongs to two table
cycles (cycle 20 ends in 1976 and cycle 21 starts in 1976), so the claim
that no calendar year belongs to two cycles is false. -/
theorem c4_counterexample :
    (SOLAR_CYCLES.filter fun c => cycleContainsYear c 1976).length = 2 := by
  with_unfolding_all decide

/-- C4 (amended): every cycle record — each table entry and every record
`predictFutureSolarCycle` produces — satisfies
`startYear < peakYear < endYear`; consecutive table cycles are contiguous,
overlapping exactly in their shared boundary year (`endYear` of each equals
the `startYear` of the next, so each boundary year passes the membership
test of two adjacent cycles); and every year from 1964 onward is contained,
under the code's membership test, in the cycle the code's lookup selects
for it. -/
theorem c4_cycles_amended :
    (∀ c ∈ SOLAR_CYCLES, c.startYear < c.peakYear ∧ c.peakYear < c.endYear) ∧
    (∀ d : JSDate,
      (predictFutureSolarCycle d).startYear < (predictFutureSolarCycle d).peakYear ∧
      (predictFutureSolarCycle d).peakYear < (predictFutureSolarCycle d).endYear) ∧
    List.Chain' (fun a b => a.endYear = b.startYear) SOLAR_CYCLES ∧
    (∀ y : ℤ, 1964 ≤ y → ∀ m : Fin 12,
      cycleContainsYear (getSolarCycleForDate ⟨y, m⟩) y = true) := by
  refine ⟨?_, predictFutureSolarCycle_ordered, ?_, ?_⟩
  · intro c hc
    fin_cases hc <;> exact ⟨by decide, by decide⟩
  · simp [SOLAR_CYCLES, List.chain'_cons]
  · intro y hy m
    exact getSolarCycleForDate_contains hy m

theorem c4_witness :
    cycleContainsYear (getSolarCycleForDate ⟨2040, 0⟩) 2040 = true :=
  c4_cycles_amended.2.2.2 2040 (by norm_num) 0

instance decCritRel : DecidableRel critRel := fun a b =>
  decidable_of_iff
    (includesStr b critMarker = true → includesStr a critMarker = true) Iff.rfl

/-- C5: in the recommendations list of every `OptimalTimingResult` returned
by `calculateOptimalTiming` — for every location, date and noise draw — any
string containing "⚠️ CRITICAL" precedes any string not containing it
(pairwise: whenever a later entry contains the marker, every earlier entry
does too). -/
theorem c5_critical_first (env : MathEnv) (r1 r2 r3 : ℚ) (loc : LocationData)
    (d : JSDate) (r : OptimalTimingResult)
    (h : calculateOptimalTiming env r1 r2 r3 loc d = some r) :
    r.recommendations.Pairwise critRel := by
  obtain ⟨a, sr, recs, -, -, -, -, -, -, -, -, -, -, -, -, -, -, -, -, heq⟩ :=
    calculateOptimalTiming_eq env r1 r2 r3 loc d
  rw [h] at heq
  obtain rfl := Option.some_inj.mp heq
  obtain ⟨score, hrec⟩ := assembleTimingResult_recommendations a sr recs loc d
  rw [hrec]
  exact pairwise_jsSortRecs _

theorem c5_witness :
    (calculateOptimalTiming envW 0 0 0 locNY dJul).isSome = true ∧
    (((calculateOptimalTiming envW 0 0 0 locNY dJul).map
      (fun r => decide (r.recommendations.Pairwise critRel))).getD false) = true := by
  refine ⟨by with_unfolding_all decide, ?_⟩
  rcases he : calculateOptimalTiming envW 0 0 0 locNY dJul with _ | r
  · exact absurd he (by with_unfolding_all decide)
  · simp only [he, Option.map_some', Option.getD_some, decide_eq_true_eq]
    exact c5_critical_first envW 0 0 0 locNY dJul r he

/-- C6: every `RiskFactor` in the `riskFactors` list produced by
`calculateOptimalTiming` — across all seven generation branches — has an
impact value in `[-100, 100]`, for every location with latitude in
`[-90, 90]`, every date and every noise draw. -/
theorem c6_impacts_in_range (env : MathEnv) (r1 r2 r3 : ℚ) (loc : LocationData)
    (d : JSDate) (hlat1 : -90 ≤ loc.latitude) (hlat2 : loc.latitude ≤ 90)
    (r : OptimalTimingResult)
    (h : calculateOptimalTiming env r1 r2 r3 loc d = some r) :
    ∀ f ∈ r.riskFactors, -100 ≤ f.impact ∧ f.impact ≤ 100 := by
  obtain ⟨a, sr, recs, -, -, -, -, hli1, hli2, huv1, huv2, hvd1, hvd2, hir1, hir2,
    hra1, hra2, -, -, heq⟩ := calculateOptimalTiming_eq env r1 r2 r3 loc d
  rw [h] at heq
  obtain rfl := Option.some_inj.mp heq
  rw [assembleTimingResult_riskFactors]
  exact engineRiskFactors_impact a sr loc d hli1 hli2 huv1 huv2 hvd1 hvd2
    hir1 hir2 hra1 hra2 hlat1 hlat2

theorem c6_witness :
    (calculateOptimalTiming envW 0 0 0 locNY dJul).isSome = true ∧
    (((calculateOptimalTiming envW 0 0 0 locNY dJul).map
      (fun r => r.riskFactors.all fun f =>
        decide (-100 ≤ f.impact) && decide (f.impact ≤ 100))).getD false) = true := by
  refine ⟨by with_unfolding_all decide, ?_⟩
  rcases he : calculateOptimalTiming envW 0 0 0 locNY dJul with _ | r
  · exact absurd he (by with_unfolding_all decide)
  · simp only [he, Option.map_some', Option.getD_some, List.all_eq_true,
      Bool.and_eq_true, decide_eq_true_eq]
    intro f hf
    exact c6_impacts_in_range envW 0 0 0 locNY dJul
      (by with_unfolding_all decide) (by with_unfolding_all decide) r he f hf

/-- C7: for every date with birth month `m` and every Southern-Hemisphere
location (latitude ≤ 0, the code's `isNorthernHemisphere` being a strict
`latitude > 0` test), `calculateDiseaseRisks` returns exactly the
Northern-Hemisphere table entry for month `((m+5) % 12) + 1`. -/
theorem c7_southern_offset (d : JSDate) (loc : LocationData)
    (h : loc.latitude ≤ 0) :
    calculateDiseaseRisks d loc =
      NORTHERN_HEMISPHERE_DISEASE_RISKS ((d.month.val + 1 + 5) % 12 + 1) := by
  unfold calculateDiseaseRisks
  have hn : isNorthernHemisphere loc.latitude = false := by
    simp only [isNorthernHemisphere, decide_eq_false_iff_not]
    exact not_lt.mpr h
  simp only [hn, Bool.false_eq_true, if_false]
  obtain ⟨h1, h2⟩ := adjustedMonth_range false d.month
  simp only [Bool.false_eq_true, if_false] at h1 h2
  obtain ⟨v, hv, -, -⟩ := diseaseRisks_table_isSome h1 h2
  rw [hv]
  rfl

theorem c7_witness :
    locSouth.latitude ≤ 0 ∧
    calculateDiseaseRisks dJul locSouth =
      NORTHERN_HEMISPHERE_DISEASE_RISKS ((dJul.month.val + 1 + 5) % 12 + 1) :=
  ⟨by with_unfolding_all decide,
   c7_southern_offset dJul locSouth (by with_unfolding_all decide)⟩

/-- C8: for every well-formed input (latitude in `[-90, 90]`, longitude in
`[-180, 180]`, any calendar date) and every noise draw,
`calculateOptimalTiming` runs to completion and returns a result: every
disease-table lookup uses a month key in `[1, 12]` and every cycle-length
division has a nonzero divisor, so the `none` branch of the embedding is
unreachable. -/
theorem c8_engine_total (env : MathEnv) (r1 r2 r3 : ℚ) (loc : LocationData)
    (d : JSDate) (_hlat1 : -90 ≤ loc.latitude) (_hlat2 : loc.latitude ≤ 90)
    (_hlon1 : -180 ≤ loc.longitude) (_hlon2 : loc.longitude ≤ 180) :
    (calculateOptimalTiming env r1 r2 r3 loc d).isSome = true := by
  obtain ⟨a, sr, recs, -, -, -, -, -, -, -, -, -, -, -, -, -, -, -, -, heq⟩ :=
    calculateOptimalTiming_eq env r1 r2 r3 loc d
  rw [heq]
  rfl

theorem c8_witness : (calculateOptimalTiming envW 0 0 0 locNY dJul).isSome = true :=
  c8_engine_total envW 0 0 0 locNY dJul
    (by with_unfolding_all decide) (by with_unfolding_all decide)
    (by with_unfolding_all decide) (by with_unfolding_all decide)

/-- C9: for any two calls of `calculateOptimalTiming` with the same
`(location, date)` — i.e. for any two triples of random draws — the
returned `seasonalData` records are identical: the seasonal pipeline is
deterministic in its inputs. -/
theorem c9_seasonalData_deterministic (env : MathEnv) (loc : LocationData)
    (d : JSDate) (r1 r2 r3 r1' r2' r3' : ℚ) :
    (calculateOptimalTiming env r1 r2 r3 loc d).map (fun r => r.seasonalData) =
      (calculateOptimalTiming env r1' r2' r3' loc d).map (fun r => r.seasonalData) := by
  obtain ⟨a, sr, recs, -, hsr, -, -, -, -, -, -, -, -, -, -, -, -, -, -, heq⟩ :=
    calculateOptimalTiming_eq env r1 r2 r3 loc d
  obtain ⟨a', sr', recs', -, hsr', -, -, -, -, -, -, -, -, -, -, -, -, -, -, heq'⟩ :=
    calculateOptimalTiming_eq env r1' r2' r3' loc d
  rw [heq, heq']
  rw [hsr] at hsr'
  obtain rfl := Option.some_inj.mp hsr'
  simp only [Option.map_some', assembleTimingResult_seasonalData]

/-- C10: `calculateMentalHealthRisk` returns only `1.0` or `1.3`, the
mental-health recommendation guard requires a multiplier strictly greater
than `1.3`, so no recommendations list returned by `calculateOptimalTiming`
ever contains the mental-health care-team string. -/
theorem c10_mentalHealth_rec_unreachable :
    (∀ s : ℤ, calculateMentalHealthRisk s = 1 ∨ calculateMentalHealthRisk s = 1.3) ∧
    ∀ (env : MathEnv) (r1 r2 r3 : ℚ) (loc : LocationData) (d : JSDate)
      (r : OptimalTimingResult),
      calculateOptimalTiming env r1 r2 r3 loc d = some r →
        mentalCareStr ∉ r.recommendations := by
  refine ⟨calculateMentalHealthRisk_cases, ?_⟩
  intro env r1 r2 r3 loc d r h
  obtain ⟨a, sr, recs, -, -, hrecs, -, -, -, -, -, -, -, -, -, -, -, -, -, heq⟩ :=
    calculateOptimalTiming_eq env r1 r2 r3 loc d
  rw [h] at heq
  obtain rfl := Option.some_inj.mp heq
  obtain ⟨score, hrec⟩ := assembleTimingResult_recommendations a sr recs loc d
  rw [hrec]
  intro hmem
  have h1 := mem_jsSetDedup ((mem_sortBy _ _ _).mp hmem)
  obtain ⟨recs2, hr2, hprop⟩ := getSeasonalRecommendations_eq env d loc
  rw [hrecs] at hr2
  obtain rfl := Option.some_inj.mp hr2
  exact mentalCare_not_mem_engineRecommendations a sr _ recs score d hprop h1

theorem c10_witness :
    (calculateOptimalTiming envW 0 0 0 locNY dJul).isSome = true ∧
    (((calculateOptimalTiming envW 0 0 0 locNY dJul).map
      (fun r => decide (mentalCareStr ∈ r.recommendations))).getD true) = false := by
  refine ⟨by with_unfolding_all decide, ?_⟩
  rcases he : calculateOptimalTiming envW 0 0 0 locNY dJul with _ | r
  · exact absurd he (by with_unfolding_all decide)
  · simp only [he, Option.map_some', Option.getD_some, decide_eq_false_iff_not]
    exact c10_mentalHealth_rec_unreachable.2 envW 0 0 0 locNY dJul r he
